import Mathlib

/-!
Shallow embedding of `src/ec2_find_asg/ec2_find_asg.py`, an Ansible module that
finds EC2 Auto Scaling Groups by tags and projects their properties.

Python dictionaries are embedded as association lists `List (String × β)` whose
keys are unique; assignment `d[k] = v` replaces the value at an existing key in
place or appends a fresh binding at the end, and lookup returns the binding of
the first (hence only) occurrence of the key.  Equality of Python dictionaries
is equality of their sets of `(key, value)` items, which the definitions below
spell out as mutual item inclusion.
-/

/-- One tag of an Auto Scaling Group: in the boto3 response this is the mapping
with entries `Key` and `Value`; on the boto group object it has attributes
`key` and `value` (both spellings denote the same record here). -/
structure Tag where
  key : String
  value : String
deriving DecidableEq, Repr

/-- An instance member of a group, with the attributes `get_properties` reads. -/
structure ASGInstance where
  instance_id : String
  health_status : String
  lifecycle_state : String
  launch_config_name : String
deriving DecidableEq, Repr

/-- An Auto Scaling Group record carrying every attribute of `ASG_ATTRIBUTES`
together with its instances and tags. -/
structure AutoScalingGroup where
  availability_zones : List String
  default_cooldown : Int
  desired_capacity : Int
  health_check_period : Int
  health_check_type : String
  launch_config_name : String
  load_balancers : List String
  max_size : Int
  min_size : Int
  name : String
  placement_group : String
  termination_policies : List String
  vpc_zone_identifier : String
  instances : List ASGInstance
  tags : List Tag
deriving DecidableEq, Repr

/-- The per-instance fact record stored under an instance id in
`properties['instance_facts']`. -/
structure InstanceFacts where
  health_status : String
  lifecycle_state : String
  launch_config_name : String
deriving DecidableEq, Repr

/-- The value stored under one key of the properties dictionary that
`get_properties` returns. -/
inductive PropValue where
  | str : String → PropValue
  | int : Int → PropValue
  | strList : List String → PropValue
  | facts : List (String × InstanceFacts) → PropValue
  | tagMap : List (String × String) → PropValue
deriving DecidableEq, Repr

/-- Python dictionary assignment `d[k] = v` on an association list: replace the
binding at the first occurrence of `k`, or append `(k, v)` when `k` is absent. -/
def dictSet {β : Type} : List (String × β) → String → β → List (String × β)
  | [], k, v => [(k, v)]
  | (k₀, v₀) :: d, k, v => if k₀ == k then (k, v) :: d else (k₀, v₀) :: dictSet d k v

/-- Python dictionary lookup `d[k]` (as an `Option`): the value bound to the
first occurrence of `k`, or `none` when the key is absent. -/
def dictGet {β : Type} : List (String × β) → String → Option β
  | [], _ => none
  | (k₀, v₀) :: d, k => if k₀ == k then some v₀ else dictGet d k

/-- Lookup of an integer-valued key, defaulting to `0` when the key is absent
or bound to a non-integer value. -/
def dictGetInt (d : List (String × PropValue)) (k : String) : Int :=
  match dictGet d k with
  | some (PropValue.int n) => n
  | _ => 0

/-- `dict(pairs)` in Python: fold dictionary assignment over a list of pairs
starting from the empty dictionary, so a later binding of a key overwrites an
earlier one. -/
def pyDictOf {β : Type} (l : List (String × β)) : List (String × β) :=
  l.foldl (fun d p => dictSet d p.1 p.2) []

/-- The six instance counters that `get_properties` maintains while looping
over a group's instances. -/
structure Counters where
  viable : Nat
  healthy : Nat
  unhealthy : Nat
  in_service : Nat
  terminating : Nat
  pending : Nat
deriving DecidableEq, Repr

/-- One iteration of the instance loop of `get_properties` (lines 88-99):
`viable_instances` is incremented when the instance is Healthy and InService;
`healthy_instances` when it is Healthy, else `unhealthy_instances`;
`in_service_instances`, `terminating_instances` and `pending_instances` when
the lifecycle state is `InService`, `Terminating` and `Pending` respectively. -/
def tally (c : Counters) (i : ASGInstance) : Counters where
  viable := c.viable + (if i.health_status == r"Healthy" && i.lifecycle_state == r"InService" then 1 else 0)
  healthy := c.healthy + (if i.health_status == r"Healthy" then 1 else 0)
  unhealthy := c.unhealthy + (if i.health_status == r"Healthy" then 0 else 1)
  in_service := c.in_service + (if i.lifecycle_state == r"InService" then 1 else 0)
  terminating := c.terminating + (if i.lifecycle_state == r"Terminating" then 1 else 0)
  pending := c.pending + (if i.lifecycle_state == r"Pending" then 1 else 0)

/-- The instance loop of `get_properties` run over a whole instance list,
starting from the zero-initialised counters of lines 74-79. -/
def tallyAll (l : List ASGInstance) : Counters :=
  l.foldl tally (Counters.mk 0 0 0 0 0 0)

/-- The `instance_facts` dictionary built inside the instance loop:
`instance_facts[i.instance_id] = ...health_status, lifecycle_state,
launch_config_name...` for each instance in order. -/
def instance_facts_of (l : List ASGInstance) : List (String × InstanceFacts) :=
  l.foldl
    (fun facts i =>
      dictSet facts i.instance_id
        (InstanceFacts.mk i.health_status i.lifecycle_state i.launch_config_name))
    []

/-- `get_properties` (lines 62-106): the properties dictionary of a group.  It
starts from the `ASG_ATTRIBUTES` bindings, initialises the six counters to 0,
and, when the instance list is non-empty (Python truthiness of a list), stores
the instance-id list, the counter totals accumulated by the instance loop
(denoted by `tallyAll`) and the `instance_facts` dictionary; it then reassigns
`load_balancers` and, when the tag list is non-empty, stores the tag
dictionary. -/
def get_properties (g : AutoScalingGroup) : List (String × PropValue) :=
  let properties : List (String × PropValue) :=
    [(r"availability_zones", PropValue.strList g.availability_zones),
     (r"default_cooldown", PropValue.int g.default_cooldown),
     (r"desired_capacity", PropValue.int g.desired_capacity),
     (r"health_check_period", PropValue.int g.health_check_period),
     (r"health_check_type", PropValue.str g.health_check_type),
     (r"launch_config_name", PropValue.str g.launch_config_name),
     (r"load_balancers", PropValue.strList g.load_balancers),
     (r"max_size", PropValue.int g.max_size),
     (r"min_size", PropValue.int g.min_size),
     (r"name", PropValue.str g.name),
     (r"placement_group", PropValue.str g.placement_group),
     (r"termination_policies", PropValue.strList g.termination_policies),
     (r"vpc_zone_identifier", PropValue.str g.vpc_zone_identifier)]
  let properties := dictSet properties r"healthy_instances" (PropValue.int 0)
  let properties := dictSet properties r"in_service_instances" (PropValue.int 0)
  let properties := dictSet properties r"unhealthy_instances" (PropValue.int 0)
  let properties := dictSet properties r"pending_instances" (PropValue.int 0)
  let properties := dictSet properties r"viable_instances" (PropValue.int 0)
  let properties := dictSet properties r"terminating_instances" (PropValue.int 0)
  let properties :=
    if !g.instances.isEmpty then
      let properties :=
        dictSet properties r"instances" (PropValue.strList (g.instances.map (fun i => i.instance_id)))
      let totals := tallyAll g.instances
      let properties := dictSet properties r"viable_instances" (PropValue.int (totals.viable : Int))
      let properties := dictSet properties r"healthy_instances" (PropValue.int (totals.healthy : Int))
      let properties := dictSet properties r"unhealthy_instances" (PropValue.int (totals.unhealthy : Int))
      let properties := dictSet properties r"in_service_instances" (PropValue.int (totals.in_service : Int))
      let properties := dictSet properties r"terminating_instances" (PropValue.int (totals.terminating : Int))
      let properties := dictSet properties r"pending_instances" (PropValue.int (totals.pending : Int))
      dictSet properties r"instance_facts" (PropValue.facts (instance_facts_of g.instances))
    else properties
  let properties := dictSet properties r"load_balancers" (PropValue.strList g.load_balancers)
  let properties :=
    if !g.tags.isEmpty then
      dictSet properties r"tags"
        (PropValue.tagMap (pyDictOf (g.tags.map (fun t => (t.key, t.value)))))
    else properties
  properties

/-- The per-group test of `match` (lines 126-128): build the group's tag
dictionary, intersect its item set with the search-tag item set, and accept the
group when the intersection equals `search_tags` as a dictionary, i.e. when the
two item sets include each other. -/
def matchGroup (search_tags : List (String × String)) (g : AutoScalingGroup) : Bool :=
  let as_group_tags := pyDictOf (g.tags.map (fun t => (t.key, t.value)))
  let tags_intersection := as_group_tags.filter (fun p => decide (p ∈ search_tags))
  decide (∀ p ∈ tags_intersection, p ∈ search_tags) &&
    decide (∀ p ∈ search_tags, p ∈ tags_intersection)

/-- The argument of `match`: the boto3 `describe_auto_scaling_groups` response,
a mapping whose `AutoScalingGroups` entry lists the groups. -/
structure ASGroupsInput where
  AutoScalingGroups : List AutoScalingGroup
deriving DecidableEq, Repr

/-- The return value of `match`: a dictionary with the single key `as_groups`
bound to the list of matching groups. -/
structure MatchOutput where
  as_groups : List AutoScalingGroup
deriving DecidableEq, Repr

/-- `match` (lines 109-135): append, in input order, every group whose tag
dictionary passes `matchGroup`, and return the result under `as_groups`. -/
def «match» (as_groups : ASGroupsInput) (search_tags : List (String × String)) : MatchOutput :=
  MatchOutput.mk (as_groups.AutoScalingGroups.filter (matchGroup search_tags))

/-- `find` (lines 138-154): fetch all groups from the connection and match
them against the search tags.  The connection is modelled by the response its
single call `describe_auto_scaling_groups()` returns. -/
def find (connection : ASGroupsInput) (search_tags : List (String × String)) : MatchOutput :=
  «match» connection search_tags

/-- Whether `main`'s argument spec marks `tags` as required.  Line 162 declares
`tags=dict(type=dict)` with no `required=True`, so the host framework's
default, `required=False`, applies — even though the module DOCUMENTATION
string advertises `required: true`. -/
def tags_required_in_spec : Bool := false

/-- Outcome of one invocation of `main`, distinguishing a failure raised by
argument validation (before any network call) from whatever happens after the
`describe_auto_scaling_groups` network call. -/
inductive MainOutcome where
  | configError : String → MainOutcome
  | afterFetch : Except String MatchOutput → MainOutcome
deriving Repr

/-- `main` (lines 157-188), with the provider response passed in explicitly.
Argument validation by the host framework fails only for a missing parameter
whose spec marks it required; `tags` is not so marked, so a missing `tags`
parameter is accepted and `module.params.get('tags')` yields `None`.  `find`
then performs the network fetch and calls `match`, where a `None` search-tag
set raises `AttributeError` on `None.iteritems()` at the first group (with
zero groups the loop body never runs and the result is an empty match list). -/
def mainFlow (tagsParam : Option (List (String × String))) (fetched : ASGroupsInput) :
    MainOutcome :=
  if tags_required_in_spec && tagsParam.isNone then
    MainOutcome.configError r"missing required arguments: tags"
  else
    match tagsParam with
    | some t => MainOutcome.afterFetch (Except.ok (find fetched t))
    | none =>
        if fetched.AutoScalingGroups.isEmpty then
          MainOutcome.afterFetch (Except.ok (MatchOutput.mk []))
        else
          MainOutcome.afterFetch
            (Except.error r"AttributeError: NoneType object has no attribute iteritems")

/-! ### Dictionary lemmas -/

@[simp]
theorem dictGet_nil {β : Type} (k : String) : dictGet ([] : List (String × β)) k = none := rfl

@[simp]
theorem dictGet_cons {β : Type} (k₀ : String) (v₀ : β) (d : List (String × β)) (k : String) :
    dictGet ((k₀, v₀) :: d) k = if k₀ == k then some v₀ else dictGet d k := rfl

@[simp]
theorem dictGet_dictSet_self {β : Type} (d : List (String × β)) (k : String) (v : β) :
    dictGet (dictSet d k v) k = some v := by
  induction d with
  | nil => simp [dictSet]
  | cons p d ih =>
    obtain ⟨k₀, v₀⟩ := p
    by_cases h : k₀ == k <;> simp [dictSet, h, ih]

@[simp]
theorem dictGet_dictSet_ne {β : Type} (d : List (String × β)) (k₀ k : String) (v : β)
    (h : (k₀ == k) = false) : dictGet (dictSet d k₀ v) k = dictGet d k := by
  induction d with
  | nil => simp [dictSet, h]
  | cons p d ih =>
    obtain ⟨k₁, v₁⟩ := p
    by_cases h1 : k₁ == k₀
    · have hk : k₁ = k₀ := eq_of_beq h1
      subst hk
      simp [dictSet, h1, h]
    · simp [dictSet, h1, ih]

@[simp]
theorem dictGet_ite {β : Type} (c : Prop) [Decidable c] (a b : List (String × β)) (k : String) :
    dictGet (if c then a else b) k = if c then dictGet a k else dictGet b k := by
  split <;> rfl

/-- Dictionary assignment at a fresh key appends the binding. -/
theorem dictSet_append_of_not_mem {β : Type} (d : List (String × β)) (k : String) (v : β)
    (h : ∀ p ∈ d, p.1 ≠ k) : dictSet d k v = d ++ [(k, v)] := by
  induction d with
  | nil => rfl
  | cons p d ih =>
    obtain ⟨k₀, v₀⟩ := p
    have hk : ¬(k₀ == k) = true := by
      simpa using h (k₀, v₀) (List.mem_cons_self _ _)
    simp only [dictSet, if_neg hk, List.cons_append, List.cons.injEq, true_and]
    exact ih (fun q hq => h q (List.mem_cons_of_mem _ hq))

/-- Folding dictionary assignment over bindings whose keys are fresh and
pairwise distinct just appends them in order. -/
theorem foldl_dictSet_append {β : Type} (l : List (String × β)) :
    ∀ acc : List (String × β), ((acc ++ l).map Prod.fst).Nodup →
      l.foldl (fun d p => dictSet d p.1 p.2) acc = acc ++ l := by
  induction l with
  | nil => intro acc _; simp
  | cons p t ih =>
    intro acc h
    have hmap : (acc.map Prod.fst ++ (p.1 :: t.map Prod.fst)).Nodup := by simpa using h
    have hdis := (List.nodup_append.mp hmap).2.2
    have hfresh : ∀ q ∈ acc, q.1 ≠ p.1 := by
      intro q hq hcontra
      exact hdis (List.mem_map_of_mem Prod.fst hq) (by simp [hcontra])
    rw [List.foldl_cons, dictSet_append_of_not_mem acc p.1 p.2 hfresh]
    have hassoc : (acc ++ [p]) ++ t = acc ++ p :: t := by simp
    rw [ih (acc ++ [p]) (by rw [hassoc]; exact h), hassoc]

/-- `dict(pairs)` over a pair list with pairwise-distinct keys returns the
pair list itself. -/
theorem pyDictOf_of_nodup_keys {β : Type} (l : List (String × β))
    (h : (l.map Prod.fst).Nodup) : pyDictOf l = l := by
  have := foldl_dictSet_append l [] (by simpa using h)
  simpa [pyDictOf] using this

/-! ### Counter lemmas -/

theorem foldl_tally_viable (l : List ASGInstance) :
    ∀ c : Counters, (l.foldl tally c).viable =
      c.viable + l.countP (fun i => i.health_status == r"Healthy" && i.lifecycle_state == r"InService") := by
  induction l with
  | nil => intro c; simp
  | cons i t ih => intro c; simp [List.foldl_cons, ih, tally, List.countP_cons]; split <;> omega

theorem foldl_tally_healthy (l : List ASGInstance) :
    ∀ c : Counters, (l.foldl tally c).healthy =
      c.healthy + l.countP (fun i => i.health_status == r"Healthy") := by
  induction l with
  | nil => intro c; simp
  | cons i t ih => intro c; simp [List.foldl_cons, ih, tally, List.countP_cons]; split <;> omega

theorem foldl_tally_unhealthy (l : List ASGInstance) :
    ∀ c : Counters, (l.foldl tally c).unhealthy =
      c.unhealthy + l.countP (fun i => !(i.health_status == r"Healthy")) := by
  induction l with
  | nil => intro c; simp
  | cons i t ih =>
    intro c
    simp only [List.foldl_cons, ih, tally, List.countP_cons]
    by_cases h : i.health_status == r"Healthy"
    · simp [h]
    · simp [h]
      omega

theorem foldl_tally_in_service (l : List ASGInstance) :
    ∀ c : Counters, (l.foldl tally c).in_service =
      c.in_service + l.countP (fun i => i.lifecycle_state == r"InService") := by
  induction l with
  | nil => intro c; simp
  | cons i t ih => intro c; simp [List.foldl_cons, ih, tally, List.countP_cons]; split <;> omega

theorem foldl_tally_terminating (l : List ASGInstance) :
    ∀ c : Counters, (l.foldl tally c).terminating =
      c.terminating + l.countP (fun i => i.lifecycle_state == r"Terminating") := by
  induction l with
  | nil => intro c; simp
  | cons i t ih => intro c; simp [List.foldl_cons, ih, tally, List.countP_cons]; split <;> omega

theorem foldl_tally_pending (l : List ASGInstance) :
    ∀ c : Counters, (l.foldl tally c).pending =
      c.pending + l.countP (fun i => i.lifecycle_state == r"Pending") := by
  induction l with
  | nil => intro c; simp
  | cons i t ih => intro c; simp [List.foldl_cons, ih, tally, List.countP_cons]; split <;> omega

theorem countP_add_countP_not {α : Type} (p : α → Bool) (l : List α) :
    l.countP p + l.countP (fun a => !(p a)) = l.length := by
  induction l with
  | nil => rfl
  | cons a t ih => by_cases h : p a <;> simp [List.countP_cons, h] <;> omega

theorem countP_and_le_left {α : Type} (p q : α → Bool) (l : List α) :
    l.countP (fun a => p a && q a) ≤ l.countP p := by
  induction l with
  | nil => simp
  | cons a t ih =>
    by_cases hp : p a <;> by_cases hq : q a <;> simp [List.countP_cons, hp, hq] <;> omega

theorem countP_and_le_right {α : Type} (p q : α → Bool) (l : List α) :
    l.countP (fun a => p a && q a) ≤ l.countP q := by
  induction l with
  | nil => simp
  | cons a t ih =>
    by_cases hp : p a <;> by_cases hq : q a <;> simp [List.countP_cons, hp, hq] <;> omega

/-! ### Bridging lemmas: reading the counters off the properties dictionary -/

theorem getProps_viable (g : AutoScalingGroup) :
    dictGet (get_properties g) r"viable_instances" =
      some (PropValue.int ((tallyAll g.instances).viable : Int)) := by
  rcases hg : g.instances with _ | ⟨i, is⟩ <;> simp [get_properties, hg, tallyAll]

theorem getProps_healthy (g : AutoScalingGroup) :
    dictGet (get_properties g) r"healthy_instances" =
      some (PropValue.int ((tallyAll g.instances).healthy : Int)) := by
  rcases hg : g.instances with _ | ⟨i, is⟩ <;> simp [get_properties, hg, tallyAll]

theorem getProps_unhealthy (g : AutoScalingGroup) :
    dictGet (get_properties g) r"unhealthy_instances" =
      some (PropValue.int ((tallyAll g.instances).unhealthy : Int)) := by
  rcases hg : g.instances with _ | ⟨i, is⟩ <;> simp [get_properties, hg, tallyAll]

theorem getProps_in_service (g : AutoScalingGroup) :
    dictGet (get_properties g) r"in_service_instances" =
      some (PropValue.int ((tallyAll g.instances).in_service : Int)) := by
  rcases hg : g.instances with _ | ⟨i, is⟩ <;> simp [get_properties, hg, tallyAll]

theorem getProps_terminating (g : AutoScalingGroup) :
    dictGet (get_properties g) r"terminating_instances" =
      some (PropValue.int ((tallyAll g.instances).terminating : Int)) := by
  rcases hg : g.instances with _ | ⟨i, is⟩ <;> simp [get_properties, hg, tallyAll]

theorem getProps_pending (g : AutoScalingGroup) :
    dictGet (get_properties g) r"pending_instances" =
      some (PropValue.int ((tallyAll g.instances).pending : Int)) := by
  rcases hg : g.instances with _ | ⟨i, is⟩ <;> simp [get_properties, hg, tallyAll]

/-! ### Characterisation of the matcher -/

theorem matchGroup_iff (T : List (String × String)) (g : AutoScalingGroup)
    (h : (g.tags.map Tag.key).Nodup) :
    matchGroup T g = true ↔ ∀ p ∈ T, p ∈ g.tags.map (fun t => (t.key, t.value)) := by
  have hkeys : ((g.tags.map (fun t => (t.key, t.value))).map Prod.fst).Nodup := by
    simpa [List.map_map, Function.comp] using h
  unfold matchGroup
  rw [pyDictOf_of_nodup_keys _ hkeys]
  simp only [Bool.and_eq_true, decide_eq_true_eq, List.mem_filter]
  constructor
  · exact fun hm p hp => (hm.2 p hp).1
  · exact fun hs => ⟨fun p hp => hp.2, fun p hp => ⟨hs p hp, hp⟩⟩

theorem matchGroup_empty_search (g : AutoScalingGroup) : matchGroup [] g = true := by
  simp [matchGroup]

/-! ### Concrete inputs for witnesses and evaluations -/

/-- A concrete group with one healthy in-service instance and one tag. -/
def demoGroup : AutoScalingGroup where
  availability_zones := [r"us-west-1a"]
  default_cooldown := 300
  desired_capacity := 1
  health_check_period := 300
  health_check_type := r"EC2"
  launch_config_name := r"lc-1"
  load_balancers := [r"elb-1"]
  max_size := 2
  min_size := 1
  name := r"asg-demo"
  placement_group := r""
  termination_policies := [r"Default"]
  vpc_zone_identifier := r"subnet-1"
  instances := [ASGInstance.mk r"i-001" r"Healthy" r"InService" r"lc-1"]
  tags := [Tag.mk r"env" r"prod"]

/-- The group of spec Scenario D: two instances, one Healthy/InService and one
Unhealthy/Pending. -/
def scenarioDGroup : AutoScalingGroup where
  availability_zones := [r"us-west-1a"]
  default_cooldown := 300
  desired_capacity := 2
  health_check_period := 300
  health_check_type := r"EC2"
  launch_config_name := r"lc-d"
  load_balancers := []
  max_size := 4
  min_size := 1
  name := r"asg-scenario-d"
  placement_group := r""
  termination_policies := []
  vpc_zone_identifier := r"subnet-d"
  instances := [ASGInstance.mk r"i-1" r"Healthy" r"InService" r"lc-d",
                ASGInstance.mk r"i-2" r"Unhealthy" r"Pending" r"lc-d"]
  tags := []

/-- A concrete group with zero instances and two tags with distinct keys. -/
def emptyInstancesGroup : AutoScalingGroup where
  availability_zones := [r"us-west-1b"]
  default_cooldown := 120
  desired_capacity := 0
  health_check_period := 60
  health_check_type := r"ELB"
  launch_config_name := r"lc-e"
  load_balancers := []
  max_size := 1
  min_size := 0
  name := r"asg-empty"
  placement_group := r""
  termination_policies := []
  vpc_zone_identifier := r"subnet-e"
  instances := []
  tags := [Tag.mk r"env" r"prod", Tag.mk r"tier" r"web"]

/-! ### Claim theorems -/

/-- Claim C1, refuting evaluation: on a concrete fetched list and search tag
set, the find pipeline returns the raw matching group record unchanged; the
projector `get_properties` — which on this group would report one healthy
instance — is never applied to any output element, so find does not compose
the matcher with the projector. -/
theorem find_returns_raw_group_without_projection :
    (find (ASGroupsInput.mk [demoGroup]) [(r"env", r"prod")]).as_groups = [demoGroup] ∧
    dictGetInt (get_properties demoGroup) r"healthy_instances" = 1 := by
  constructor
  · rfl
  · rfl

/-- Claim C2: `match` includes a group exactly when every (key, value) pair of
the search tag set occurs among the group's tags with that exact value; extra
group tags are permitted, while a missing key or a different value excludes
the group.  Stated for groups whose tag keys are unique, the documented
invariant on group tags. -/
theorem match_includes_iff_search_tags_subset (gs : ASGroupsInput)
    (T : List (String × String)) (g : AutoScalingGroup)
    (hg : g ∈ gs.AutoScalingGroups) (h : (g.tags.map Tag.key).Nodup) :
    g ∈ («match» gs T).as_groups ↔
      ∀ p ∈ T, p ∈ g.tags.map (fun t => (t.key, t.value)) := by
  simp only [«match», List.mem_filter]
  constructor
  · intro hx
    exact (matchGroup_iff T g h).mp hx.2
  · intro hx
    exact ⟨hg, (matchGroup_iff T g h).mpr hx⟩

/-- Witness for C2 at a concrete group and search tag set. -/
theorem match_includes_iff_search_tags_subset_witness :
    emptyInstancesGroup ∈
        («match» (ASGroupsInput.mk [emptyInstancesGroup]) [(r"env", r"prod")]).as_groups ↔
      ∀ p ∈ [(r"env", r"prod")],
        p ∈ emptyInstancesGroup.tags.map (fun t => (t.key, t.value)) :=
  match_includes_iff_search_tags_subset (ASGroupsInput.mk [emptyInstancesGroup])
    [(r"env", r"prod")] emptyInstancesGroup (by simp) (by decide)

/-- Claim C3: with the empty search tag set, `match` includes every group of
the input. -/
theorem match_empty_search_tags_includes_all (gs : ASGroupsInput) :
    («match» gs []).as_groups = gs.AutoScalingGroups := by
  simp only [«match»]
  exact List.filter_eq_self.mpr (fun g _ => matchGroup_empty_search g)

/-- Claim C4, refuting evaluation: invoked without the `tags` parameter while
the provider has one group, the module passes argument validation (its
argument spec never marks `tags` as required, contrary to its DOCUMENTATION),
performs the network fetch, and only afterwards fails inside `match` — it does
not fail with a configuration error before the network call. -/
theorem main_missing_tags_reaches_network_call :
    mainFlow none (ASGroupsInput.mk [demoGroup]) =
      MainOutcome.afterFetch
        (Except.error r"AttributeError: NoneType object has no attribute iteritems") := rfl

/-- Claim C5: for every group, `healthy_instances + unhealthy_instances`
equals the number of instances. -/
theorem get_properties_health_partition (g : AutoScalingGroup) :
    dictGetInt (get_properties g) r"healthy_instances" +
      dictGetInt (get_properties g) r"unhealthy_instances" =
      (g.instances.length : Int) := by
  have hp : g.instances.countP (fun i => i.health_status == r"Healthy") +
      g.instances.countP (fun i => !(i.health_status == r"Healthy")) =
      g.instances.length := countP_add_countP_not _ _
  simp [dictGetInt, getProps_healthy g, getProps_unhealthy g, tallyAll,
    foldl_tally_healthy, foldl_tally_unhealthy]
  omega

/-- Claim C6: `viable_instances` never exceeds `healthy_instances` nor
`in_service_instances`, since viable counts the instances that are both
Healthy and InService. -/
theorem get_properties_viable_le_min (g : AutoScalingGroup) :
    dictGetInt (get_properties g) r"viable_instances" ≤
      min (dictGetInt (get_properties g) r"healthy_instances")
        (dictGetInt (get_properties g) r"in_service_instances") := by
  have h1 : g.instances.countP
        (fun i => i.health_status == r"Healthy" && i.lifecycle_state == r"InService") ≤
      g.instances.countP (fun i => i.health_status == r"Healthy") :=
    countP_and_le_left _ _ _
  have h2 : g.instances.countP
        (fun i => i.health_status == r"Healthy" && i.lifecycle_state == r"InService") ≤
      g.instances.countP (fun i => i.lifecycle_state == r"InService") :=
    countP_and_le_right _ _ _
  simp [dictGetInt, getProps_viable g, getProps_healthy g, getProps_in_service g, tallyAll,
    foldl_tally_viable, foldl_tally_healthy, foldl_tally_in_service]
  omega

/-- Claim C7: a group with zero instances yields a properties dictionary with
no `instances` key and no `instance_facts` key. -/
theorem get_properties_zero_instances_omits_instance_fields (g : AutoScalingGroup)
    (h : g.instances = []) :
    dictGet (get_properties g) r"instances" = none ∧
    dictGet (get_properties g) r"instance_facts" = none := by
  constructor <;> simp [get_properties, h]

/-- Witness for C7 at a concrete group with zero instances. -/
theorem get_properties_zero_instances_omits_instance_fields_witness :
    dictGet (get_properties emptyInstancesGroup) r"instances" = none ∧
    dictGet (get_properties emptyInstancesGroup) r"instance_facts" = none :=
  get_properties_zero_instances_omits_instance_fields emptyInstancesGroup rfl

/-- Claim C8: on the Scenario D group (one Healthy/InService instance and one
Unhealthy/Pending instance) the projection yields viable 1, healthy 1,
unhealthy 1, pending 1, in-service 1 and terminating 0. -/
theorem get_properties_scenario_d_counts :
    dictGetInt (get_properties scenarioDGroup) r"viable_instances" = 1 ∧
    dictGetInt (get_properties scenarioDGroup) r"healthy_instances" = 1 ∧
    dictGetInt (get_properties scenarioDGroup) r"unhealthy_instances" = 1 ∧
    dictGetInt (get_properties scenarioDGroup) r"pending_instances" = 1 ∧
    dictGetInt (get_properties scenarioDGroup) r"in_service_instances" = 1 ∧
    dictGetInt (get_properties scenarioDGroup) r"terminating_instances" = 0 := by
  refine ⟨rfl, rfl, rfl, rfl, rfl, rfl⟩

/-- Claim C9: the list of matching groups is a subsequence of the input list,
in the provider's original listing order. -/
theorem match_output_sublist_of_input (gs : ASGroupsInput)
    (T : List (String × String)) :
    List.Sublist ((«match» gs T).as_groups) gs.AutoScalingGroups :=
  List.filter_sublist gs.AutoScalingGroups

/-- Claim C10: every properties dictionary carries all six counter keys; for a
group with zero instances each key is present with value 0 even though the
instance-derived fields are omitted. -/
theorem get_properties_counters_always_present (g : AutoScalingGroup) :
    ((dictGet (get_properties g) r"healthy_instances").isSome = true ∧
     (dictGet (get_properties g) r"in_service_instances").isSome = true ∧
     (dictGet (get_properties g) r"unhealthy_instances").isSome = true ∧
     (dictGet (get_properties g) r"pending_instances").isSome = true ∧
     (dictGet (get_properties g) r"viable_instances").isSome = true ∧
     (dictGet (get_properties g) r"terminating_instances").isSome = true) ∧
    (g.instances = [] →
      dictGet (get_properties g) r"healthy_instances" = some (PropValue.int 0) ∧
      dictGet (get_properties g) r"in_service_instances" = some (PropValue.int 0) ∧
      dictGet (get_properties g) r"unhealthy_instances" = some (PropValue.int 0) ∧
      dictGet (get_properties g) r"pending_instances" = some (PropValue.int 0) ∧
      dictGet (get_properties g) r"viable_instances" = some (PropValue.int 0) ∧
      dictGet (get_properties g) r"terminating_instances" = some (PropValue.int 0)) := by
  refine ⟨⟨?_, ?_, ?_, ?_, ?_, ?_⟩, ?_⟩
  · simp [getProps_healthy g]
  · simp [getProps_in_service g]
  · simp [getProps_unhealthy g]
  · simp [getProps_pending g]
  · simp [getProps_viable g]
  · simp [getProps_terminating g]
  · intro h
    refine ⟨?_, ?_, ?_, ?_, ?_, ?_⟩ <;>
      simp [getProps_healthy g, getProps_in_service g, getProps_unhealthy g,
        getProps_pending g, getProps_viable g, getProps_terminating g, h, tallyAll]

/-- Witness for C10 at a concrete group with zero instances. -/
theorem get_properties_counters_always_present_witness :
    (dictGet (get_properties emptyInstancesGroup) r"healthy_instances").isSome = true ∧
    dictGet (get_properties emptyInstancesGroup) r"viable_instances" =
      some (PropValue.int 0) :=
  ⟨(get_properties_counters_always_present emptyInstancesGroup).1.1,
   ((get_properties_counters_always_present emptyInstancesGroup).2 rfl).2.2.2.2.1⟩
